import Mathlib

/-!
Verification of the `familycolor` image-extraction pipeline
(`scripts/image_extractor/`).

The Python sources are shallowly embedded as executable Lean definitions:

* `create_rgb_label_map` / `decode_region_id` embed
  `processors/region_extractor.py` (RGB label-map encoding and decoding);
* `cc_run` / `raw_label_map` / `stats_area` model
  `cv2.connectedComponentsWithStats` (4-connectivity, labels assigned in
  row-major order of first encounter, `stats` area equal to the number of
  label-map cells carrying the label, as the OpenCV documentation
  guarantees); `extract` embeds `RegionExtractor.extract` on top of it;
* `validate` / `recommend_age_group` / `auto_classify` embed
  `qa_validator.py`, with `config.py` default limits;
* `process_page` embeds the QA/persistence control flow of
  `pipeline.py` (`Pipeline.process_page`), recording filesystem effects
  as an explicit event list;
* `extract_lines_mode` embeds the clean-vs-scan histogram decision of
  `processors/line_extractor.py` (`LineExtractor._extract_lines`).

Python `float` arithmetic is modelled by exact rationals (`ℚ`): every
quantity the code compares is a ratio of machine integers bounded by the
pixel count of a 2048×2048 image, far below the range where IEEE-754
double rounding could change the outcome of the comparisons involved.
Masks and label maps are `List (List Nat)` grids (0 = background).
-/

set_option maxRecDepth 100000

namespace FamilyColor

/-! ### RGB label-map encoding (`processors/region_extractor.py`) -/

/-- Per-pixel denotation of `RegionExtractor.create_rgb_label_map`
(lines 104-135): background (id 0) stays `(0,0,0)` from the zero
initialisation; any other id is written as
`(id % 256, id / 256 % 256, id / 65536 % 256)` into the (R,G,B) channels. -/
def encode_pixel (region_id : Nat) : Nat × Nat × Nat :=
  if region_id = 0 then (0, 0, 0)
  else (region_id % 256, region_id / 256 % 256, region_id / 65536 % 256)

/-- `RegionExtractor.create_rgb_label_map`: encode every cell of a label map.
The Python loop iterates over `np.unique(label_map)` and writes each id
through a boolean mask; per pixel this is exactly `encode_pixel`. -/
def create_rgb_label_map (label_map : List (List Nat)) : List (List (Nat × Nat × Nat)) :=
  label_map.map (fun row => row.map encode_pixel)

/-- `decode_region_id` (region_extractor.py lines 202-209). -/
def decode_region_id (r g b : Nat) : Nat :=
  r + g * 256 + b * 65536

/-! ### Connected components (model of `cv2.connectedComponentsWithStats`) -/

/-- A grayscale mask: rows of pixel values, nonzero = foreground. -/
abbrev Mask := List (List Nat)

/-- Value of a mask at position `(row, col)`; out-of-range reads 0. -/
def cell (mask : Mask) (p : Nat × Nat) : Nat :=
  (mask.getD p.1 []).getD p.2 0

/-- All in-range positions of the grid, in row-major order. -/
def positions (mask : Mask) : List (Nat × Nat) :=
  ((List.range mask.length).map (fun r =>
    (List.range (mask.getD r []).length).map (fun c => (r, c)))).flatten

/-- 4-connectivity neighbourhood (`connectivity=4` in the source). -/
def neighbors4 (p : Nat × Nat) : List (Nat × Nat) :=
  [(p.1 + 1, p.2), (p.1, p.2 + 1)]
    ++ (if 0 < p.1 then [(p.1 - 1, p.2)] else [])
    ++ (if 0 < p.2 then [(p.1, p.2 - 1)] else [])

/-- One expansion step of a flood fill: keep every foreground position that
is in the current set or 4-adjacent to it. Monotone in `s`. -/
def grow (fg : Nat × Nat → Bool) (univ : List (Nat × Nat)) (s : List (Nat × Nat)) :
    List (Nat × Nat) :=
  univ.filter (fun p => fg p && (s.contains p || (neighbors4 p).any (fun q => s.contains q)))

/-- The 4-connected component of `p0`: iterating `grow` to its fixpoint
(`univ.length + 1` rounds always suffice). -/
def component (fg : Nat × Nat → Bool) (univ : List (Nat × Nat)) (p0 : Nat × Nat) :
    List (Nat × Nat) :=
  (grow fg univ)^[univ.length + 1] [p0]

/-- Labelling state: current label assignment and the next fresh label. -/
structure CCState where
  label : Nat × Nat → Nat
  next : Nat

/-- Scan step: an unlabelled foreground pixel opens a fresh label for its
whole component (labels are handed out in row-major first-encounter order,
starting from 1, with 0 reserved for background — as cv2 does). -/
def cc_step (mask : Mask) (univ : List (Nat × Nat)) (st : CCState) (p : Nat × Nat) : CCState :=
  if cell mask p ≠ 0 ∧ st.label p = 0 then
    let comp := component (fun q => cell mask q != 0) univ p
    { label := fun q => if comp.contains q then st.next else st.label q
      next := st.next + 1 }
  else st

/-- Run the labelling scan over the whole grid. -/
def cc_run (mask : Mask) : CCState :=
  (positions mask).foldl (cc_step mask (positions mask)) { label := fun _ => 0, next := 1 }

/-- `num_labels` returned by `cv2.connectedComponentsWithStats`: number of
labels including background (so it is 1 for an all-background mask). -/
def num_labels (mask : Mask) : Nat :=
  (cc_run mask).next

/-- The label map returned by the connected-components pass, materialised
as a grid congruent to the input mask. -/
def raw_label_map (mask : Mask) : List (List Nat) :=
  (List.range mask.length).map (fun r =>
    (List.range (mask.getD r []).length).map (fun c => (cc_run mask).label (r, c)))

/-- `stats[i]` area: the number of label-map cells carrying label `i`
(guaranteed equal by the OpenCV documentation of `connectedComponentsWithStats`). -/
def stats_area (mask : Mask) (i : Nat) : Nat :=
  (raw_label_map mask).flatten.count i

/-! ### Region extraction (`RegionExtractor.extract`) -/

/-- `RegionMetadata` (region_extractor.py lines 17-58). Only the fields the
verified claims mention are carried; `centroid` and `bounding_box` exist in
the source but no claim refers to them. -/
structure RegionMetadata where
  id : Nat
  pixel_count : Nat
deriving DecidableEq

/-- `RegionExtractor.extract` (lines 67-102): run connected components,
then keep, for `i` in `range(1, num_labels)`, the regions whose area is
not below `min_region_area`, carrying the raw label `i` as the region id.
The label map is returned untouched. `min_region_area` is the
`Config.min_region_area` field (default 500). -/
def extract (min_region_area : Nat) (mask : Mask) :
    List (List Nat) × List RegionMetadata :=
  (raw_label_map mask,
   (List.range' 1 (num_labels mask - 1)).filterMap (fun i =>
     if stats_area mask i < min_region_area then none
     else some { id := i, pixel_count := stats_area mask i }))

/-! ### Configuration defaults (`config.py`) -/

/-- `Config.min_region_area` default (config.py line 34). -/
def min_region_area_default : Nat := 500

/-- `Config.line_threshold` default (config.py line 29). -/
def line_threshold : Nat := 128

/-- `AgeGroup` (config.py lines 11-15). -/
inductive AgeGroup
  | KIDS
  | FAMILY
  | ADULT
deriving DecidableEq

/-- `Config.get_max_regions` with the default `max_regions` table
(config.py lines 37-41, 59-61). -/
def get_max_regions : AgeGroup → Nat
  | AgeGroup.KIDS => 150
  | AgeGroup.FAMILY => 300
  | AgeGroup.ADULT => 1000

/-- `Config.get_min_region_pixels` with the default `min_region_pixels`
table (config.py lines 43-47, 63-65). -/
def get_min_region_pixels : AgeGroup → Nat
  | AgeGroup.KIDS => 5000
  | AgeGroup.FAMILY => 2000
  | AgeGroup.ADULT => 500

/-- `Config.tiny_region_threshold` default, 0.3 (config.py line 50). -/
def tiny_region_threshold : ℚ := 3 / 10

/-! ### QA validation (`qa_validator.py`) -/

/-- `QAResult` enum. -/
inductive QAResult
  | PASS
  | WARN
  | FAIL
deriving DecidableEq

/-- `QAIssue`; the human-readable `message`/`details` f-strings are not
modelled, the `severity` and `code` that the control flow inspects are. -/
structure QAIssue where
  severity : QAResult
  code : String
deriving DecidableEq

/-- Issue code for check 1 of `QAValidator.validate`. -/
def code_region_count : String := "REGION_COUNT_EXCEEDED"

/-- Issue code for check 2 of `QAValidator.validate`. -/
def code_tiny : String := "TOO_MANY_TINY_REGIONS"

/-- Issue code for the recommendation warning of `QAValidator.validate`. -/
def code_mismatch : String := "AGE_GROUP_MISMATCH"

/-- `QAReport` (qa_validator.py lines 34-47). -/
structure QAReport where
  result : QAResult
  issues : List QAIssue
  region_count : Nat
  tiny_region_count : Nat
  tiny_region_percentage : ℚ
  age_group : AgeGroup
  recommended_age_group : Option AgeGroup
deriving DecidableEq

/-- Average region size used by `QAValidator._recommend_age_group`
(lines 174-177): `sum(pixel_count)/len(regions)` if nonempty, else 0. -/
def avg_region_size (regions : List RegionMetadata) : ℚ :=
  let s : Nat := (regions.map (fun r => r.pixel_count)).sum
  if regions.length = 0 then 0
  else (s : ℚ) / regions.length

/-- `QAValidator._recommend_age_group` (lines 162-198). The Python
`if count <= kids_max: if tiny <= 0.2: return KIDS` nesting falls through
to the next check when the inner test fails, hence the conjunctions. -/
def recommend_age_group (region_count : Nat) (tiny_percentage : ℚ)
    (regions : List RegionMetadata) : AgeGroup :=
  let avg_size := avg_region_size regions
  if region_count ≤ 80 ∧ avg_size ≥ 10000 then AgeGroup.KIDS
  else if region_count ≤ 200 ∧ avg_size ≥ 3000 then AgeGroup.FAMILY
  else if region_count ≤ get_max_regions AgeGroup.KIDS ∧ tiny_percentage ≤ 2 / 10 then
    AgeGroup.KIDS
  else if region_count ≤ get_max_regions AgeGroup.FAMILY ∧ tiny_percentage ≤ 25 / 100 then
    AgeGroup.FAMILY
  else AgeGroup.ADULT

/-- `QAValidator.validate` (lines 84-160), with the default config. -/
def validate (regions : List RegionMetadata) (target : AgeGroup) : QAReport :=
  let region_count := regions.length
  let max_regions := get_max_regions target
  let min_pixels := get_min_region_pixels target
  let tiny_count := (regions.filter (fun r => r.pixel_count < min_pixels)).length
  let tiny_percentage : ℚ :=
    if 0 < region_count then (tiny_count : ℚ) / region_count else 0
  let issues1 : List QAIssue :=
    if max_regions < region_count then [{ severity := QAResult.FAIL, code := code_region_count }]
    else []
  let issues2 : List QAIssue :=
    if tiny_region_threshold < tiny_percentage then [{ severity := QAResult.FAIL, code := code_tiny }]
    else []
  let recommended := recommend_age_group region_count tiny_percentage regions
  let issues3 : List QAIssue :=
    if recommended ≠ target then [{ severity := QAResult.WARN, code := code_mismatch }]
    else []
  let issues := issues1 ++ issues2 ++ issues3
  let result : QAResult :=
    if issues.any (fun i => i.severity == QAResult.FAIL) then QAResult.FAIL
    else if issues.any (fun i => i.severity == QAResult.WARN) then QAResult.WARN
    else QAResult.PASS
  { result := result
    issues := issues
    region_count := region_count
    tiny_region_count := tiny_count
    tiny_region_percentage := tiny_percentage
    age_group := target
    recommended_age_group := if recommended ≠ target then some recommended else none }

/-- `QAValidator.auto_classify` (lines 200-224): first pass computes the
tiny percentage against the FAMILY pixel floor, recommends, then validates
against the recommendation. -/
def auto_classify (regions : List RegionMetadata) : AgeGroup × QAReport :=
  let region_count := regions.length
  let tiny_pct : ℚ :=
    if regions.length ≠ 0 then
      (((regions.filter
          (fun r => r.pixel_count < get_min_region_pixels AgeGroup.FAMILY)).length : ℚ) /
        region_count)
    else 0
  let recommended := recommend_age_group region_count tiny_pct regions
  (recommended, validate regions recommended)

/-! ### Pipeline persistence control flow (`pipeline.py`) -/

/-- Filesystem effects `Pipeline.process_page` can perform under
`output_dir/page_id`, in program order. -/
inductive FsEvent
  | mkdir_page_dir
  | write_file (name : String)
  | mkdir_debug_dir
deriving DecidableEq

/-- `ProcessingResult` (pipeline.py lines 24-32); the `metadata` payload is
not modelled, the fields the claims inspect are. -/
structure ProcessingResult where
  success : Bool
  qa_report : Option QAReport
  error : Option String
deriving DecidableEq

/-- Error string of the QA-abort branch (pipeline.py line 110). -/
def qa_failed_error : String := "QA validation failed"

/-- Output file names written by the success path of `process_page`. -/
def image_png : String := "image.png"

/-- `labels.png`, the persisted RGB label map. -/
def labels_png : String := "labels.png"

/-- `thumb.png`. -/
def thumb_png : String := "thumb.png"

/-- `metadata.json`. -/
def metadata_json : String := "metadata.json"

/-- Debug artefacts written when `Config.debug_output` is set. -/
def debug_lines_png : String := "_debug/debug_lines.png"

/-- Debug fillable-mask image. -/
def debug_fillable_png : String := "_debug/debug_fillable.png"

/-- Debug random-colour region preview. -/
def debug_regions_preview_png : String := "_debug/regions_preview.png"

/-- Debug thumbnail-with-regions preview. -/
def debug_thumb_regions_png : String := "_debug/thumb_regions.png"

/-- Age-group selection of `process_page` step 3 (pipeline.py lines 93-98):
auto-classify when no age group is given, else validate against it. -/
def classify_and_validate (regions : List RegionMetadata) (age_group : Option AgeGroup) :
    AgeGroup × QAReport :=
  match age_group with
  | none => auto_classify regions
  | some g => (g, validate regions g)

/-- `Pipeline.process_page` (lines 57-181), abstracted over the image
processing: the extracted `regions` stand in for steps 1-2, and the
filesystem effects are recorded as an event list in program order. The
page output directory is created (line 81) before QA runs; on
`QAResult.FAIL` without `skip_qa_fail` the function returns at lines
103-111 with no further effect; otherwise the four outputs and, when
`debug_output` is set, the debug directory and its four artefacts are
written. -/
def process_page (regions : List RegionMetadata) (age_group : Option AgeGroup)
    (skip_qa_fail : Bool) (debug_output : Bool) : List FsEvent × ProcessingResult :=
  let qa_report := (classify_and_validate regions age_group).2
  if qa_report.result = QAResult.FAIL ∧ skip_qa_fail = false then
    ([FsEvent.mkdir_page_dir],
     { success := false, qa_report := some qa_report, error := some qa_failed_error })
  else
    ([FsEvent.mkdir_page_dir, FsEvent.write_file image_png, FsEvent.write_file labels_png,
      FsEvent.write_file thumb_png, FsEvent.write_file metadata_json]
       ++ (if debug_output then
             [FsEvent.mkdir_debug_dir, FsEvent.write_file debug_lines_png,
              FsEvent.write_file debug_fillable_png,
              FsEvent.write_file debug_regions_preview_png,
              FsEvent.write_file debug_thumb_regions_png]
           else []),
     { success := true, qa_report := some qa_report, error := none })

/-! ### Integer re-expressions of the QA arithmetic

The QA validator compares rationals (`tiny_count / region_count` against
`0.3`, `0.2`, `0.25`; the average region size against `10000` and `3000`).
The following definitions re-express those comparisons over the integers;
`validate_eq` and `auto_classify_eq` below prove them equivalent, which
makes every concrete run of the validator computable by `decide`. -/

/-- Number of regions below the target age group's pixel floor
(the `tiny_regions` list length of `QAValidator.validate`). -/
def tiny_count_of (regions : List RegionMetadata) (target : AgeGroup) : Nat :=
  (regions.filter (fun r => r.pixel_count < get_min_region_pixels target)).length

/-- Total pixel count over a region list (`sum(r.pixel_count)`). -/
def pixel_sum (regions : List RegionMetadata) : Nat :=
  (regions.map (fun r => r.pixel_count)).sum

/-- `_recommend_age_group` with its rational comparisons cleared of
denominators: `n` = region count, `t` = tiny count, `s` = pixel sum. -/
def recommend_nat (n t s : Nat) : AgeGroup :=
  if n ≤ 80 ∧ (n ≠ 0 ∧ 10000 * n ≤ s) then AgeGroup.KIDS
  else if n ≤ 200 ∧ (n ≠ 0 ∧ 3000 * n ≤ s) then AgeGroup.FAMILY
  else if n ≤ 150 ∧ 10 * t ≤ 2 * n then AgeGroup.KIDS
  else if n ≤ 300 ∧ 100 * t ≤ 25 * n then AgeGroup.FAMILY
  else AgeGroup.ADULT

/-- The issue list of `QAValidator.validate` in integer form. -/
def issues_nat (regions : List RegionMetadata) (target : AgeGroup) : List QAIssue :=
  (if get_max_regions target < regions.length then
    [{ severity := QAResult.FAIL, code := code_region_count }]
   else []) ++
  (if 3 * regions.length < 10 * tiny_count_of regions target then
    [{ severity := QAResult.FAIL, code := code_tiny }]
   else []) ++
  (if recommend_nat regions.length (tiny_count_of regions target) (pixel_sum regions) ≠ target then
    [{ severity := QAResult.WARN, code := code_mismatch }]
   else [])

/-- Overall verdict from an issue list (`validate` lines 141-150). -/
def result_of_issues (issues : List QAIssue) : QAResult :=
  if issues.any (fun i => i.severity == QAResult.FAIL) then QAResult.FAIL
  else if issues.any (fun i => i.severity == QAResult.WARN) then QAResult.WARN
  else QAResult.PASS

/-! ### Clean-vs-scan decision (`LineExtractor._extract_lines`) -/

/-- `cv2.calcHist` over a grayscale image: `hist[b]` counts the pixels of
value `b` (256 bins over `[0, 256)`). The image is its pixel list. -/
def calc_hist (img : List Nat) (b : Nat) : Nat :=
  img.count b

/-- `peak_white = np.sum(hist[200:])` (line_extractor.py line 87):
pixels with value in `[200, 256)`. -/
def peak_white (img : List Nat) : Nat :=
  ∑ b ∈ Finset.Ico 200 256, calc_hist img b

/-- `peak_black = np.sum(hist[:50])` (line 88): pixels with value in
`[0, 50)`, i.e. at most 49. -/
def peak_black (img : List Nat) : Nat :=
  ∑ b ∈ Finset.range 50, calc_hist img b

/-- The thresholding mode `_extract_lines` commits to. -/
inductive ThresholdMode
  | global_threshold (thresh : Nat)
  | adaptive_threshold (block_size c_offset : Nat)
deriving DecidableEq

/-- The decision of `LineExtractor._extract_lines` (lines 80-103): the
fixed global threshold (`Config.line_threshold`, default 128) is used when
`peak_white > size * 0.5` and `peak_black > size * 0.01` (strict float
comparisons, rendered exactly over the integers), else adaptive
thresholding with `blockSize=21`, `C=10`. -/
def extract_lines_mode (img : List Nat) : ThresholdMode :=
  if 2 * peak_white img > img.length ∧ 100 * peak_black img > img.length then
    ThresholdMode.global_threshold line_threshold
  else
    ThresholdMode.adaptive_threshold 21 10

/-! ## Helper lemmas -/

/-- The 24-bit RGB encoding round-trips through `decode_region_id`. -/
theorem decode_encode_pixel (region_id : Nat) (h : region_id ≤ 16777215) :
    decode_region_id (encode_pixel region_id).1 (encode_pixel region_id).2.1
      (encode_pixel region_id).2.2 = region_id := by
  unfold encode_pixel decode_region_id
  by_cases h0 : region_id = 0
  · simp [h0]
  · rw [if_neg h0]
    simp only
    omega

/-- A nonzero id of at most 24 bits is never encoded as pure black. -/
theorem encode_pixel_ne_zero (region_id : Nat) (h0 : region_id ≠ 0)
    (h : region_id ≤ 16777215) : encode_pixel region_id ≠ (0, 0, 0) := by
  intro hcontra
  apply h0
  have := decode_encode_pixel region_id h
  rw [hcontra] at this
  simpa [decode_region_id] using this.symm

/-- `0.3 < tiny/count` (with the zero-count convention) over the integers. -/
theorem tiny_lt_threshold_iff (t n : Nat) (ht : t ≤ n) :
    (tiny_region_threshold < (if 0 < n then (t : ℚ) / n else 0)) ↔ 3 * n < 10 * t := by
  unfold tiny_region_threshold
  rcases Nat.eq_zero_or_pos n with h0 | hp
  · have ht0 : t = 0 := by omega
    subst h0 ht0
    norm_num
  · rw [if_pos hp]
    have hn : (0 : ℚ) < n := by exact_mod_cast hp
    rw [div_lt_div_iff₀ (by norm_num) hn]
    norm_cast
    omega

/-- `tiny/count ≤ 0.2` over the integers. -/
theorem tiny_le_fifth_iff (t n : Nat) (ht : t ≤ n) :
    ((if 0 < n then (t : ℚ) / n else 0) ≤ 2 / 10) ↔ 10 * t ≤ 2 * n := by
  rcases Nat.eq_zero_or_pos n with h0 | hp
  · have ht0 : t = 0 := by omega
    subst h0 ht0
    norm_num
  · rw [if_pos hp]
    have hn : (0 : ℚ) < n := by exact_mod_cast hp
    rw [div_le_div_iff₀ hn (by norm_num)]
    norm_cast
    omega

/-- `tiny/count ≤ 0.25` over the integers. -/
theorem tiny_le_quarter_iff (t n : Nat) (ht : t ≤ n) :
    ((if 0 < n then (t : ℚ) / n else 0) ≤ 25 / 100) ↔ 100 * t ≤ 25 * n := by
  rcases Nat.eq_zero_or_pos n with h0 | hp
  · have ht0 : t = 0 := by omega
    subst h0 ht0
    norm_num
  · rw [if_pos hp]
    have hn : (0 : ℚ) < n := by exact_mod_cast hp
    rw [div_le_div_iff₀ hn (by norm_num)]
    norm_cast
    omega

/-- `avg_region_size ≥ q` over the integers, for a positive integer bound. -/
theorem avg_ge_iff (regions : List RegionMetadata) (q : ℚ) (qn : Nat)
    (hq : q = qn) (hq0 : 0 < qn) :
    (avg_region_size regions ≥ q) ↔
      (regions.length ≠ 0 ∧ qn * regions.length ≤ pixel_sum regions) := by
  subst hq
  unfold avg_region_size pixel_sum
  rcases Nat.eq_zero_or_pos regions.length with h0 | hp
  · have hq' : (0 : ℚ) < qn := by exact_mod_cast hq0
    constructor
    · intro h
      rw [if_pos h0] at h
      exact absurd h (by linarith)
    · rintro ⟨h, -⟩
      exact absurd h0 h
  · rw [if_neg (by omega)]
    have hn : (0 : ℚ) < regions.length := by exact_mod_cast hp
    rw [ge_iff_le, le_div_iff₀ hn]
    constructor
    · intro h
      refine ⟨by omega, ?_⟩
      exact_mod_cast h
    · rintro ⟨-, h⟩
      exact_mod_cast h

/-- `_recommend_age_group` agrees with its integer form `recommend_nat`
whenever the tiny fraction has the shape `validate` passes it. -/
theorem recommend_age_group_eq (regions : List RegionMetadata) (t : Nat)
    (ht : t ≤ regions.length) :
    recommend_age_group regions.length (if 0 < regions.length then (t : ℚ) / regions.length else 0)
        regions =
      recommend_nat regions.length t (pixel_sum regions) := by
  unfold recommend_age_group recommend_nat
  rw [show get_max_regions AgeGroup.KIDS = 150 from rfl,
      show get_max_regions AgeGroup.FAMILY = 300 from rfl]
  simp only [avg_ge_iff regions (10000 : ℚ) 10000 (by norm_num) (by norm_num),
    avg_ge_iff regions (3000 : ℚ) 3000 (by norm_num) (by norm_num),
    tiny_le_fifth_iff t regions.length ht,
    tiny_le_quarter_iff t regions.length ht]

/-- `validate` with every rational comparison replaced by its integer
form; this turns any concrete run of the validator into a `decide`-able
computation. -/
theorem validate_eq (regions : List RegionMetadata) (target : AgeGroup) :
    validate regions target =
      { result := result_of_issues (issues_nat regions target)
        issues := issues_nat regions target
        region_count := regions.length
        tiny_region_count := tiny_count_of regions target
        tiny_region_percentage :=
          if 0 < regions.length then (tiny_count_of regions target : ℚ) / regions.length else 0
        age_group := target
        recommended_age_group :=
          if recommend_nat regions.length (tiny_count_of regions target) (pixel_sum regions)
              ≠ target then
            some (recommend_nat regions.length (tiny_count_of regions target)
              (pixel_sum regions))
          else none } := by
  have ht : (regions.filter (fun r => r.pixel_count < get_min_region_pixels target)).length
      ≤ regions.length := List.length_filter_le _ _
  unfold validate issues_nat result_of_issues tiny_count_of
  simp only [tiny_lt_threshold_iff _ _ ht, recommend_age_group_eq regions _ ht]

/-- `auto_classify` in integer form: the first-pass tiny fraction is taken
against the FAMILY pixel floor, and the validation runs against the
recommendation so computed. -/
theorem auto_classify_eq (regions : List RegionMetadata) :
    auto_classify regions =
      (recommend_nat regions.length (tiny_count_of regions AgeGroup.FAMILY) (pixel_sum regions),
       validate regions
         (recommend_nat regions.length (tiny_count_of regions AgeGroup.FAMILY)
           (pixel_sum regions))) := by
  have ht : (regions.filter
      (fun r => r.pixel_count < get_min_region_pixels AgeGroup.FAMILY)).length
      ≤ regions.length := List.length_filter_le _ _
  unfold auto_classify tiny_count_of
  have hguard :
      (if regions.length ≠ 0 then
        (((regions.filter
            (fun r => r.pixel_count < get_min_region_pixels AgeGroup.FAMILY)).length : ℚ) /
          regions.length)
      else 0) =
      (if 0 < regions.length then
        (((regions.filter
            (fun r => r.pixel_count < get_min_region_pixels AgeGroup.FAMILY)).length : ℚ) /
          regions.length)
      else 0) := by
    rcases Nat.eq_zero_or_pos regions.length with h0 | hp
    · rw [if_neg (by omega), if_neg (by omega)]
    · rw [if_pos (by omega), if_pos hp]
  simp only [hguard, recommend_age_group_eq regions _ ht]

/-- The region list built by `extract` is the filtered id range mapped to
metadata records: the loop keeps exactly the raw labels whose area reaches
the configured minimum. -/
theorem extract_regions_eq (min_region_area : Nat) (mask : Mask) :
    (extract min_region_area mask).2 =
      ((List.range' 1 (num_labels mask - 1)).filter
          (fun i => min_region_area ≤ stats_area mask i)).map
        (fun i => { id := i, pixel_count := stats_area mask i }) := by
  unfold extract
  simp only
  generalize List.range' 1 (num_labels mask - 1) = l
  induction l with
  | nil => rfl
  | cons j l ih =>
    rw [List.filterMap_cons, List.filter_cons]
    by_cases hc : stats_area mask j < min_region_area
    · rw [if_pos hc, ih]
      have : (decide (min_region_area ≤ stats_area mask j)) = false := by
        simp only [decide_eq_false_iff_not]
        omega
      rw [this]
      simp
    · rw [if_neg hc, ih]
      have : (decide (min_region_area ≤ stats_area mask j)) = true := by
        simp only [decide_eq_true_eq]
        omega
      rw [this]
      simp

/-- Summing per-value histogram bins over a bin set counts the pixels
whose value lies in the set. -/
theorem sum_count_eq_countP (img : List Nat) (s : Finset Nat) :
    ∑ b ∈ s, calc_hist img b = img.countP (fun p => decide (p ∈ s)) := by
  unfold calc_hist
  induction img with
  | nil => simp
  | cons x l ih =>
    calc ∑ b ∈ s, List.count b (x :: l)
        = ∑ b ∈ s, (List.count b l + if b = x then 1 else 0) := by
          apply Finset.sum_congr rfl
          intro b _
          rw [List.count_cons]
          congr 1
          rcases eq_or_ne x b with h | h
          · simp [h]
          · simp [h, Ne.symm h]
      _ = (∑ b ∈ s, List.count b l) + ∑ b ∈ s, (if b = x then 1 else 0) :=
          Finset.sum_add_distrib
      _ = List.countP (fun p => decide (p ∈ s)) l + (if x ∈ s then 1 else 0) := by
          rw [ih, Finset.sum_ite_eq' s x (fun _ => 1)]
      _ = List.countP (fun p => decide (p ∈ s)) (x :: l) := by
          rw [List.countP_cons]
          by_cases hx : x ∈ s
          · simp [hx]
          · simp [hx]

/-- `np.sum(hist[200:])` counts the pixels of value at least 200, for
8-bit images (every value below 256). -/
theorem peak_white_eq (img : List Nat) (h : ∀ p ∈ img, p < 256) :
    peak_white img = img.countP (fun p => 200 ≤ p) := by
  unfold peak_white
  rw [sum_count_eq_countP]
  apply List.countP_congr
  intro p hp
  simp only [decide_eq_true_eq, Finset.mem_Ico]
  have := h p hp
  omega

/-- `np.sum(hist[:50])` counts the pixels of value at most 49. -/
theorem peak_black_eq (img : List Nat) :
    peak_black img = img.countP (fun p => p ≤ 49) := by
  unfold peak_black
  rw [sum_count_eq_countP]
  apply List.countP_congr
  intro p hp
  simp only [decide_eq_true_eq, Finset.mem_range]
  omega

/-- Every issue of the integer-form issue list carries one of the three
codes, and the mismatch code appears only when the recomputed
recommendation differs from the target. -/
theorem issues_nat_codes (regions : List RegionMetadata) (target : AgeGroup) :
    ∀ issue ∈ issues_nat regions target,
      issue.code = code_region_count ∨ issue.code = code_tiny ∨
        (issue.code = code_mismatch ∧
          recommend_nat regions.length (tiny_count_of regions target) (pixel_sum regions)
            ≠ target) := by
  unfold issues_nat
  intro issue h
  simp only [List.mem_append] at h
  rcases h with (h | h) | h
  · left
    split at h
    · rw [List.mem_singleton.mp h]
    · exact absurd h (List.not_mem_nil _)
  · right; left
    split at h
    · rw [List.mem_singleton.mp h]
    · exact absurd h (List.not_mem_nil _)
  · right; right
    split at h
    · exact ⟨by rw [List.mem_singleton.mp h], by assumption⟩
    · exact absurd h (List.not_mem_nil _)

/-! ## The claims -/

/-- Claim C1: RGB label-map round-trip. For every label map whose region
ids lie in `[1, 16777215]`, encoding with `create_rgb_label_map` and
decoding each non-background pixel with `decode_region_id`
(`R + G*256 + B*65536`) reproduces exactly the region id originally stored
at that pixel, and background pixels (id 0) stay `(0,0,0)`. -/
theorem C1_rgb_label_map_roundtrip (label_map : List (List Nat))
    (h : ∀ row ∈ label_map, ∀ id ∈ row, id ≤ 16777215) :
    List.Forall₂ (List.Forall₂ (fun id rgb =>
        (id = 0 → rgb = (0, 0, 0))
        ∧ (id ≠ 0 → decode_region_id rgb.1 rgb.2.1 rgb.2.2 = id)))
      label_map (create_rgb_label_map label_map) := by
  unfold create_rgb_label_map
  rw [List.forall₂_map_right_iff, List.forall₂_same]
  intro row hrow
  rw [List.forall₂_map_right_iff, List.forall₂_same]
  intro id hid
  refine ⟨?_, ?_⟩
  · intro h0
    simp [encode_pixel, h0]
  · intro h0
    exact decode_encode_pixel id (h row hrow id hid)

/-- Witness for C1 at a concrete label map holding the extreme ids. -/
theorem C1_rgb_label_map_roundtrip_witness :
    (∀ row ∈ ([[0, 1, 255, 256, 65536, 16777215], [70000, 0]] : List (List Nat)),
      ∀ id ∈ row, id ≤ 16777215)
    ∧ List.Forall₂ (List.Forall₂ (fun id rgb =>
        (id = 0 → rgb = (0, 0, 0))
        ∧ (id ≠ 0 → decode_region_id rgb.1 rgb.2.1 rgb.2.2 = id)))
      [[0, 1, 255, 256, 65536, 16777215], [70000, 0]]
      (create_rgb_label_map [[0, 1, 255, 256, 65536, 16777215], [70000, 0]]) :=
  ⟨by decide, C1_rgb_label_map_roundtrip _ (by decide)⟩

/-- Claim C2, counterexample: on the mask `[[1,0],[0,0]]` the single
foreground pixel forms a component of area 1 — far below the default
`min_region_area` of 500 — so it is absent from the region list; yet the
label map `extract` returns still labels it 1, and `create_rgb_label_map`
encodes that pixel as `(1,0,0) ≠ (0,0,0)`: its pixels DO receive a nonzero
region id in the persisted RGB label map, contradicting the claim. -/
theorem C2_counterexample :
    stats_area [[1, 0], [0, 0]] 1 = 1
    ∧ stats_area [[1, 0], [0, 0]] 1 < min_region_area_default
    ∧ (extract min_region_area_default [[1, 0], [0, 0]]).2 = []
    ∧ (extract min_region_area_default [[1, 0], [0, 0]]).1 = [[1, 0], [0, 0]]
    ∧ create_rgb_label_map (extract min_region_area_default [[1, 0], [0, 0]]).1
        = [[(1, 0, 0), (0, 0, 0)], [(0, 0, 0), (0, 0, 0)]] := by
  decide

/-- Claim C2, amended: a connected component whose area is below
`min_region_area` never appears in the returned region list, but the
returned label map is the raw one, so the component keeps its nonzero
label there and `create_rgb_label_map` encodes each of its pixels (any
nonzero cell of at most 24 bits) with a nonzero RGB triple. -/
theorem C2_subthreshold_regions (mask : Mask) (min_region_area i : Nat)
    (hi : stats_area mask i < min_region_area) :
    (∀ reg ∈ (extract min_region_area mask).2, reg.id ≠ i)
    ∧ List.Forall₂ (List.Forall₂ (fun id rgb =>
          id ≠ 0 → id ≤ 16777215 → rgb ≠ ((0 : Nat), (0 : Nat), (0 : Nat))))
        (extract min_region_area mask).1
        (create_rgb_label_map (extract min_region_area mask).1) := by
  constructor
  · intro reg hreg
    rw [extract_regions_eq] at hreg
    simp only [List.mem_map, List.mem_filter] at hreg
    obtain ⟨j, ⟨hmem, hkeep⟩, rfl⟩ := hreg
    simp only [decide_eq_true_eq] at hkeep
    intro hji
    simp only at hji
    subst hji
    omega
  · unfold create_rgb_label_map
    rw [List.forall₂_map_right_iff, List.forall₂_same]
    intro row hrow
    rw [List.forall₂_map_right_iff, List.forall₂_same]
    intro id hid h0 hle
    exact encode_pixel_ne_zero id h0 hle

/-- Witness for C2 (amended) at the concrete mask of the counterexample. -/
theorem C2_subthreshold_regions_witness :
    stats_area [[1, 0], [0, 0]] 1 < min_region_area_default
    ∧ ((∀ reg ∈ (extract min_region_area_default [[1, 0], [0, 0]]).2, reg.id ≠ 1)
       ∧ List.Forall₂ (List.Forall₂ (fun id rgb =>
            id ≠ 0 → id ≤ 16777215 → rgb ≠ ((0 : Nat), (0 : Nat), (0 : Nat))))
          (extract min_region_area_default [[1, 0], [0, 0]]).1
          (create_rgb_label_map (extract min_region_area_default [[1, 0], [0, 0]]).1)) :=
  ⟨by decide, C2_subthreshold_regions [[1, 0], [0, 0]] min_region_area_default 1 (by decide)⟩

/-- Claim C9: raising `min_region_area` never increases the number of
regions `RegionExtractor.extract` returns for the same mask. -/
theorem C9_min_area_monotone (mask : Mask) (a1 a2 : Nat) (h : a1 ≤ a2) :
    ((extract a2 mask).2).length ≤ ((extract a1 mask).2).length := by
  rw [extract_regions_eq, extract_regions_eq, List.length_map, List.length_map,
    ← List.countP_eq_length_filter, ← List.countP_eq_length_filter]
  apply List.countP_mono_left
  intro i _ hi
  simp only [decide_eq_true_eq] at hi ⊢
  omega

/-- Witness for C9 on a concrete mask and threshold pair. -/
theorem C9_min_area_monotone_witness :
    1 ≤ 2 ∧ ((extract 2 [[1, 0, 1, 1]]).2).length ≤ ((extract 1 [[1, 0, 1, 1]]).2).length :=
  ⟨by decide, C9_min_area_monotone [[1, 0, 1, 1]] 1 2 (by decide)⟩

/-- Claim C10: every region returned by `extract` carries a raw
connected-component label as its id, its `pixel_count` equals the number
of label-map cells holding that id, the id occurs in the returned label
map (whenever the area filter is positive, as in every configuration the
pipeline uses), the ids are strictly increasing across the list, and the
id sequence may skip labels consumed by sub-threshold components (as the
mask `[[1,0,1,1]]` with `min_region_area = 2` shows: the returned ids are
`[2]`, label 1 having been consumed by the single-pixel component). -/
theorem C10_region_label_consistency (mask : Mask) (min_region_area : Nat)
    (h : 1 ≤ min_region_area) :
    (∀ reg ∈ (extract min_region_area mask).2,
        reg.pixel_count = (extract min_region_area mask).1.flatten.count reg.id
        ∧ reg.id ∈ (extract min_region_area mask).1.flatten)
    ∧ ((extract min_region_area mask).2.map (fun r => r.id)).Pairwise (· < ·)
    ∧ (extract 2 [[1, 0, 1, 1]]).2.map (fun r => r.id) = [2] := by
  refine ⟨?_, ?_, by decide⟩
  · intro reg hreg
    rw [extract_regions_eq] at hreg
    simp only [List.mem_map, List.mem_filter] at hreg
    obtain ⟨i, ⟨hmem, hkeep⟩, rfl⟩ := hreg
    simp only [decide_eq_true_eq] at hkeep
    refine ⟨rfl, ?_⟩
    have hpos : 0 < (raw_label_map mask).flatten.count i := by
      have := hkeep
      unfold stats_area at this
      omega
    exact List.count_pos_iff.mp hpos
  · rw [extract_regions_eq, List.map_map]
    have hcomp : ((fun r : RegionMetadata => r.id) ∘ fun i =>
        ({ id := i, pixel_count := stats_area mask i } : RegionMetadata)) = fun i => i := rfl
    rw [hcomp]
    have := List.Pairwise.filter
      (fun i => decide (min_region_area ≤ stats_area mask i))
      (List.pairwise_lt_range' 1 (num_labels mask - 1))
    simpa using this

/-- Witness for C10 on a concrete mask (two components, both kept). -/
theorem C10_region_label_consistency_witness :
    1 ≤ 1
    ∧ ((∀ reg ∈ (extract 1 [[1, 0, 1], [1, 1, 1]]).2,
        reg.pixel_count = (extract 1 [[1, 0, 1], [1, 1, 1]]).1.flatten.count reg.id
        ∧ reg.id ∈ (extract 1 [[1, 0, 1], [1, 1, 1]]).1.flatten)
      ∧ ((extract 1 [[1, 0, 1], [1, 1, 1]]).2.map (fun r => r.id)).Pairwise (· < ·)
      ∧ (extract 2 [[1, 0, 1, 1]]).2.map (fun r => r.id) = [2]) :=
  ⟨by decide, C10_region_label_consistency [[1, 0, 1], [1, 1, 1]] 1 (by decide)⟩

/-- Claim C3, code evaluation at the failing input: a KIDS region set of
exactly 150 regions of 10000 px each (the input of the repository's own
boundary test, which expects PASS) is validated as WARN, because
`_recommend_age_group` recommends FAMILY (count 150 > 80 but ≤ 200 with
average size ≥ 3000) and the AGE_GROUP_MISMATCH warning downgrades the
verdict. The FAMILY and ADULT boundaries behave as the claim states
(exactly the maximum passes, one more fails), and 151 KIDS regions fail. -/
theorem C3_boundary_code_eval :
    (validate (List.replicate 150 { id := 1, pixel_count := 10000 }) AgeGroup.KIDS).result
        = QAResult.WARN
    ∧ (validate (List.replicate 150 { id := 1, pixel_count := 10000 }) AgeGroup.KIDS).issues
        = [{ severity := QAResult.WARN, code := code_mismatch }]
    ∧ (validate (List.replicate 151 { id := 1, pixel_count := 10000 }) AgeGroup.KIDS).result
        = QAResult.FAIL
    ∧ (validate (List.replicate 300 { id := 1, pixel_count := 2001 }) AgeGroup.FAMILY).result
        = QAResult.PASS
    ∧ (validate (List.replicate 301 { id := 1, pixel_count := 2001 }) AgeGroup.FAMILY).result
        = QAResult.FAIL
    ∧ (validate (List.replicate 1000 { id := 1, pixel_count := 501 }) AgeGroup.ADULT).result
        = QAResult.PASS
    ∧ (validate (List.replicate 1001 { id := 1, pixel_count := 501 }) AgeGroup.ADULT).result
        = QAResult.FAIL := by
  simp only [validate_eq]
  refine ⟨by decide, by decide, by decide, by decide, by decide, by decide, by decide⟩

/-- Claim C4, code evaluation at the failing input: with 100 KIDS regions
of which exactly 30 sit below the 5000 px floor (the input of the
repository's own threshold test, which expects PASS), the tiny fraction is
exactly 0.3, no TOO_MANY_TINY_REGIONS issue is emitted — but the verdict
is WARN, not PASS, because the recommendation (FAMILY) mismatches the
target; with 31 tiny regions the verdict is FAIL as the claim states. -/
theorem C4_tiny_boundary_code_eval :
    (validate (List.replicate 30 { id := 1, pixel_count := 4000 }
        ++ List.replicate 70 { id := 1, pixel_count := 10000 }) AgeGroup.KIDS).result
        = QAResult.WARN
    ∧ (validate (List.replicate 30 { id := 1, pixel_count := 4000 }
        ++ List.replicate 70 { id := 1, pixel_count := 10000 })
          AgeGroup.KIDS).tiny_region_percentage = 3 / 10
    ∧ (∀ issue ∈ (validate (List.replicate 30 { id := 1, pixel_count := 4000 }
        ++ List.replicate 70 { id := 1, pixel_count := 10000 }) AgeGroup.KIDS).issues,
        issue.code ≠ code_tiny)
    ∧ (validate (List.replicate 31 { id := 1, pixel_count := 4000 }
        ++ List.replicate 69 { id := 1, pixel_count := 10000 }) AgeGroup.KIDS).result
        = QAResult.FAIL := by
  simp only [validate_eq]
  refine ⟨by decide, ?_, by decide, by decide⟩
  have h1 : (List.replicate 30 ({ id := 1, pixel_count := 4000 } : RegionMetadata)
      ++ List.replicate 70 ({ id := 1, pixel_count := 10000 } : RegionMetadata)).length
      = 100 := by decide
  have h2 : tiny_count_of (List.replicate 30 { id := 1, pixel_count := 4000 }
      ++ List.replicate 70 { id := 1, pixel_count := 10000 }) AgeGroup.KIDS = 30 := by decide
  rw [h1, h2]
  norm_num

/-- Claim C5, counterexample: an empty region list validated against
FAMILY yields WARN with a nonempty issue list (the empty page is
recommended KIDS, so an AGE_GROUP_MISMATCH warning fires), not the PASS
with zero issues the claim asserts for every age group. -/
theorem C5_counterexample :
    (validate ([] : List RegionMetadata) AgeGroup.FAMILY).result = QAResult.WARN
    ∧ (validate ([] : List RegionMetadata) AgeGroup.FAMILY).issues ≠ [] := by
  simp only [validate_eq]
  exact ⟨by decide, by decide⟩

/-- Claim C5, amended: validating an empty region list never fails and
never divides by zero (the tiny percentage is 0 by the zero-count guard),
but only the KIDS target receives PASS with an empty issue list; FAMILY
and ADULT receive WARN with a single AGE_GROUP_MISMATCH issue, because the
empty page is recommended KIDS. -/
theorem C5_empty_validation (g : AgeGroup) :
    (validate ([] : List RegionMetadata) g).tiny_region_percentage = 0
    ∧ (validate ([] : List RegionMetadata) g).region_count = 0
    ∧ (validate ([] : List RegionMetadata) g).result
        = (if g = AgeGroup.KIDS then QAResult.PASS else QAResult.WARN)
    ∧ ((validate ([] : List RegionMetadata) g).issues
        = if g = AgeGroup.KIDS then []
          else [{ severity := QAResult.WARN, code := code_mismatch }]) := by
  cases g <;>
    · simp only [validate_eq]
      refine ⟨rfl, by decide, by decide, by decide⟩

/-- Claim C6, counterexample: for 100 regions of 600 px each,
`auto_classify` recommends ADULT (every acceptance rule fails against the
FAMILY :pixel floor: all regions count as tiny), but `validate` then
recomputes the tiny fraction against ADULT's 500 px floor, under which no
region is tiny, recommends KIDS, and attaches an AGE_GROUP_MISMATCH
warning: the report DOES contain the mismatch warning and its verdict IS
WARN because of it, contradicting the claim. -/
theorem C6_counterexample :
    (auto_classify (List.replicate 100 { id := 1, pixel_count := 600 })).1 = AgeGroup.ADULT
    ∧ ((auto_classify (List.replicate 100 { id := 1, pixel_count := 600 })).2.issues
        = [{ severity := QAResult.WARN, code := code_mismatch }])
    ∧ (auto_classify (List.replicate 100 { id := 1, pixel_count := 600 })).2.result
        = QAResult.WARN := by
  simp only [auto_classify_eq, validate_eq]
  exact ⟨by decide, by decide, by decide⟩

/-- Claim C6, amended: `auto_classify` does validate against its own
recommendation (the report's `age_group` is the returned recommendation),
and when that recommendation is FAMILY — the only case in which `validate`
recomputes the tiny fraction with the same pixel floor the first pass used
— the report can contain no AGE_GROUP_MISMATCH warning; for KIDS or ADULT
recommendations the recomputation can flip the inner recommendation and a
mismatch warning can appear (as the counterexample shows). -/
theorem C6_auto_classify_self (regions : List RegionMetadata) :
    (auto_classify regions).2.age_group = (auto_classify regions).1
    ∧ ((auto_classify regions).1 = AgeGroup.FAMILY →
        ∀ issue ∈ (auto_classify regions).2.issues, issue.code ≠ code_mismatch) := by
  rw [auto_classify_eq]
  constructor
  · rw [validate_eq]
  · intro hfam issue hissue
    simp only at hfam
    simp only [hfam, validate_eq] at hissue
    have h := issues_nat_codes regions AgeGroup.FAMILY issue hissue
    rcases h with h | h | ⟨hcode, hne⟩
    · rw [h]
      decide
    · rw [h]
      decide
    · exact absurd hfam hne

/-- Claim C7, counterexample: on a page whose QA verdict is FAIL (151 KIDS
regions) with `skip_qa_fail = False`, `process_page` still creates the
page output directory (pipeline.py line 81 runs before QA), so its
filesystem effect list is not empty — the claim's "writes nothing to disk,
no directory is created" is false; only the abort after the `mkdir`
matches the claim. -/
theorem C7_counterexample :
    (classify_and_validate (List.replicate 151 { id := 1, pixel_count := 10000 })
        (some AgeGroup.KIDS)).2.result = QAResult.FAIL
    ∧ (process_page (List.replicate 151 { id := 1, pixel_count := 10000 })
        (some AgeGroup.KIDS) false true).1 ≠ []
    ∧ (process_page (List.replicate 151 { id := 1, pixel_count := 10000 })
        (some AgeGroup.KIDS) false true).1 = [FsEvent.mkdir_page_dir] := by
  simp only [process_page, classify_and_validate, validate_eq]
  refine ⟨by decide, by decide, by decide⟩

/-- Claim C7, amended: on a page whose QA verdict is FAIL, with
`skip_qa_fail` false, `process_page` writes no file and creates no debug
directory — its only filesystem effect is the creation of the (empty) page
output directory, which happens before QA runs — and it returns
`success = false` with the QA report attached and the error string
"QA validation failed". -/
theorem C7_qa_fail_aborts (regions : List RegionMetadata) (age_group : Option AgeGroup)
    (skip_qa_fail debug_output : Bool)
    (hfail : (classify_and_validate regions age_group).2.result = QAResult.FAIL)
    (hskip : skip_qa_fail = false) :
    process_page regions age_group skip_qa_fail debug_output =
      ([FsEvent.mkdir_page_dir],
       { success := false
         qa_report := some (classify_and_validate regions age_group).2
         error := some qa_failed_error }) := by
  simp only [process_page]
  rw [if_pos ⟨hfail, hskip⟩]

/-- Witness for C7 (amended) at the 151-region KIDS page. -/
theorem C7_qa_fail_aborts_witness :
    (classify_and_validate (List.replicate 151 { id := 1, pixel_count := 10000 })
        (some AgeGroup.KIDS)).2.result = QAResult.FAIL
    ∧ process_page (List.replicate 151 { id := 1, pixel_count := 10000 })
        (some AgeGroup.KIDS) false true =
      ([FsEvent.mkdir_page_dir],
       { success := false
         qa_report := some (classify_and_validate
             (List.replicate 151 { id := 1, pixel_count := 10000 }) (some AgeGroup.KIDS)).2
         error := some qa_failed_error }) := by
  have h : (classify_and_validate (List.replicate 151 { id := 1, pixel_count := 10000 })
      (some AgeGroup.KIDS)).2.result = QAResult.FAIL := by
    simp only [classify_and_validate, validate_eq]
    decide
  exact ⟨h, C7_qa_fail_aborts _ _ _ _ h rfl⟩

/-- Claim C8, counterexample: on a 100-pixel image with 60 pixels at 255,
2 at 50 and 38 at 128, at least 50% of the pixels are ≥ 200 and at least
1% are ≤ 50 — the claim's condition for "clean digital line art" — yet the
code applies adaptive thresholding: `np.sum(hist[:50])` misses value 50
(it covers bins 0..49 only), and the white test `peak_white > size * 0.5`
is strict, so "at least" is also wrong at exactly 50%. -/
theorem C8_counterexample :
    ((List.replicate 60 255 ++ List.replicate 2 50 ++ List.replicate 38 128).length
        ≤ 2 * (List.replicate 60 255 ++ List.replicate 2 50
            ++ List.replicate 38 128).countP (fun p => 200 ≤ p))
    ∧ ((List.replicate 60 255 ++ List.replicate 2 50 ++ List.replicate 38 128).length
        ≤ 100 * (List.replicate 60 255 ++ List.replicate 2 50
            ++ List.replicate 38 128).countP (fun p => p ≤ 50))
    ∧ extract_lines_mode (List.replicate 60 255 ++ List.replicate 2 50
        ++ List.replicate 38 128) = ThresholdMode.adaptive_threshold 21 10 := by
  decide

/-- Claim C8, amended: for every 8-bit grayscale image, the extractor
applies the fixed global threshold (default 128) if and only if strictly
more than 50% of the pixels have value at least 200 AND strictly more than
1% have value at most 49; otherwise it applies adaptive thresholding with
block size 21 and offset 10. -/
theorem C8_clean_line_art_decision (img : List Nat) (h : ∀ p ∈ img, p < 256) :
    extract_lines_mode img = ThresholdMode.global_threshold line_threshold ↔
      (img.length < 2 * img.countP (fun p => 200 ≤ p)
        ∧ img.length < 100 * img.countP (fun p => p ≤ 49)) := by
  unfold extract_lines_mode
  rw [peak_white_eq img h, peak_black_eq img]
  split_ifs with hc
  · exact iff_of_true rfl hc
  · constructor
    · intro hcontra
      exact absurd hcontra (by decide)
    · intro hcond
      exact absurd hcond hc

/-- Witness for C8 (amended) on a concrete clean image (60% white, 2%
near-black at value 49). -/
theorem C8_clean_line_art_decision_witness :
    (∀ p ∈ List.replicate 60 255 ++ List.replicate 2 49 ++ List.replicate 38 128, p < 256)
    ∧ (extract_lines_mode (List.replicate 60 255 ++ List.replicate 2 49
          ++ List.replicate 38 128) = ThresholdMode.global_threshold line_threshold ↔
        ((List.replicate 60 255 ++ List.replicate 2 49 ++ List.replicate 38 128).length
            < 2 * (List.replicate 60 255 ++ List.replicate 2 49
                ++ List.replicate 38 128).countP (fun p => 200 ≤ p)
          ∧ (List.replicate 60 255 ++ List.replicate 2 49
              ++ List.replicate 38 128).length
            < 100 * (List.replicate 60 255 ++ List.replicate 2 49
                ++ List.replicate 38 128).countP (fun p => p ≤ 49))) :=
  ⟨by decide, C8_clean_line_art_decision _ (by decide)⟩

end FamilyColor
